import Mathlib

/-!
Verification of the NAS automation core of the `vice` simulator
(`pkg/sim/nas.go`): squawk-code pools, the ERAM/STARS facility actors'
message-sort state machines, flight-plan/message conversion, timed
flight-plan transmission, and the abbreviated flight-plan parser.

Go maps are embedded as association lists (`List (key × value)`) with the
usual lookup/set/erase operations; Go squawk pools (`map[av.Squawk]struct`
used as sets) are embedded as `Finset Nat`; nil-able Go pointers become
`Option`; a Go `panic` becomes an explicit `fatal : Option String` field in
the result of a handler.  Simulated time is abstracted to integer minutes.
-/

namespace Vice

/-! ## Association-list embedding of Go maps -/

/-- Go `m[k] = v` on a map: replace the binding for `k` if present,
otherwise add one. -/
def assocSet {α β : Type} [DecidableEq α] : List (α × β) → α → β → List (α × β)
  | [], k, v => [(k, v)]
  | (k', v') :: rest, k, v =>
      if k' = k then (k, v) :: rest else (k', v') :: assocSet rest k v

/-- Go `delete(m, k)` on a map: remove every binding for `k`. -/
def assocErase {α β : Type} [DecidableEq α] : List (α × β) → α → List (α × β)
  | [], _ => []
  | (k', v') :: rest, k =>
      if k' = k then assocErase rest k else (k', v') :: assocErase rest k

theorem lookup_cons_self {α β : Type} [DecidableEq α] (k : α) (v : β) (rest : List (α × β)) :
    List.lookup k ((k, v) :: rest) = some v := by
  simp [List.lookup]

theorem lookup_cons_ne {α β : Type} [DecidableEq α] {k k' : α} (v : β) (rest : List (α × β))
    (h : k' ≠ k) : List.lookup k' ((k, v) :: rest) = List.lookup k' rest := by
  have hb : (k' == k) = false := beq_eq_false_iff_ne.mpr h
  simp [List.lookup, hb]

theorem lookup_assocSet {α β : Type} [DecidableEq α] (l : List (α × β)) (k k' : α) (v : β) :
    List.lookup k' (assocSet l k v) = if k' = k then some v else List.lookup k' l := by
  induction l with
  | nil =>
      by_cases h : k' = k
      · subst h; simp [assocSet, lookup_cons_self]
      · simp [assocSet, h, lookup_cons_ne _ _ h]
  | cons p rest ih =>
      obtain ⟨k₀, v₀⟩ := p
      by_cases h0 : k₀ = k
      · subst h0
        by_cases h : k' = k₀
        · subst h; simp [assocSet, lookup_cons_self]
        · simp [assocSet, h, lookup_cons_ne _ _ h]
      · by_cases h : k' = k₀
        · subst h
          simp [assocSet, h0, Ne.symm h0, lookup_cons_self]
        · simp [assocSet, h0, lookup_cons_ne _ _ h, ih]

theorem lookup_assocErase {α β : Type} [DecidableEq α] (l : List (α × β)) (k k' : α) :
    List.lookup k' (assocErase l k) = if k' = k then none else List.lookup k' l := by
  induction l with
  | nil => by_cases h : k' = k <;> simp [assocErase, List.lookup, h]
  | cons p rest ih =>
      obtain ⟨k₀, v₀⟩ := p
      by_cases h0 : k₀ = k
      · subst h0
        by_cases h : k' = k₀
        · subst h; simp [assocErase, ih]
        · simp [assocErase, h, ih, lookup_cons_ne _ _ h]
      · by_cases h : k' = k₀
        · subst h
          simp [assocErase, h0, Ne.symm h0, lookup_cons_self]
        · simp [assocErase, h0, lookup_cons_ne _ _ h, ih]

/-! ## Squawk-code pools (`getValidSquawkCodes`, `getBeaconBankSquawks`,
`ERAMComputer.CreateSquawk`, `STARSComputer.CreateSquawk`) -/

/-- `getValidSquawkCodes` (nas.go): the facility-wide "NAS" pool, built from
every code in `0o1001 ..= 0o7777` that is neither a special-purpose code
(`av.SquawkIsSPC`, a fixed predicate from the aviation package, abstracted
here as the parameter `spc`) nor the VFR code `0o1200`. -/
def getValidSquawkCodes (spc : Nat → Bool) : Finset Nat :=
  (Finset.Icc 0o1001 0o7777).filter (fun i => spc i = false ∧ i ≠ 0o1200)

/-- `getBeaconBankSquawks` (nas.go): the terminal facility's local pool, the
codes `bank*0o100 + 1 ..= bank*0o100 + 0o77` of one two-octal-digit beacon
bank. -/
def getBeaconBankSquawks (bank : Nat) : Finset Nat :=
  Finset.Icc (bank * 0o100 + 1) (bank * 0o100 + 0o77)

/-- `CreateSquawk` (both `ERAMComputer` and `STARSComputer` versions): pick
any one code still in the pool — Go map iteration order is unspecified, so
the pick is modelled relationally — and delete it from the pool.  The
`ErrNoMoreAvailableSquawkCodes` branch corresponds to an empty pool, for
which no successful allocation exists. -/
def CreateSquawkRel (pool : Finset Nat) (sq : Nat) (pool' : Finset Nat) : Prop :=
  sq ∈ pool ∧ pool' = pool.erase sq

/-- A run of successive successful `CreateSquawk` allocations from a pool,
with no intervening release: each step removes the returned code. -/
inductive AllocChain : Finset Nat → List Nat → Finset Nat → Prop
  | nil (p : Finset Nat) : AllocChain p [] p
  | cons {p p' p'' : Finset Nat} {sq : Nat} {sqs : List Nat} :
      CreateSquawkRel p sq p' → AllocChain p' sqs p'' → AllocChain p (sq :: sqs) p''

theorem AllocChain.subset {p p' : Finset Nat} {sqs : List Nat}
    (h : AllocChain p sqs p') : p' ⊆ p := by
  induction h with
  | nil => exact fun _ hx => hx
  | cons hstep _ ih =>
      obtain ⟨_, rfl⟩ := hstep
      exact fun x hx => Finset.mem_of_mem_erase (ih hx)

theorem AllocChain.mem_start {p p' : Finset Nat} {sqs : List Nat}
    (h : AllocChain p sqs p') : ∀ sq ∈ sqs, sq ∈ p := by
  induction h with
  | nil => intro sq h; cases h
  | cons hstep _ ih =>
      intro sq hsq
      rcases List.mem_cons.mp hsq with rfl | hsq
      · exact hstep.1
      · obtain ⟨_, rfl⟩ := hstep
        exact Finset.mem_of_mem_erase (ih sq hsq)

theorem AllocChain.nodup {p p' : Finset Nat} {sqs : List Nat}
    (h : AllocChain p sqs p') : sqs.Nodup := by
  induction h with
  | nil => exact List.nodup_nil
  | cons hstep htail ih =>
      obtain ⟨hmem, rfl⟩ := hstep
      refine List.nodup_cons.mpr ⟨fun hcon => ?_, ih⟩
      have := htail.mem_start _ hcon
      exact (Finset.not_mem_erase _ _) this

theorem mem_getValidSquawkCodes {spc : Nat → Bool} {sq : Nat} :
    sq ∈ getValidSquawkCodes spc ↔
      0o1001 ≤ sq ∧ sq ≤ 0o7777 ∧ spc sq = false ∧ sq ≠ 0o1200 := by
  simp [getValidSquawkCodes, Finset.mem_filter, Finset.mem_Icc, and_assoc]

theorem mem_getBeaconBankSquawks {bank sq : Nat} :
    sq ∈ getBeaconBankSquawks bank ↔
      bank * 0o100 + 1 ≤ sq ∧ sq ≤ bank * 0o100 + 0o77 := by
  simp [getBeaconBankSquawks, Finset.mem_Icc]

/-- Claim C1: Every code returned by a run of successful allocations from a
squawk pool lies in the pool's configured range — for the ERAM NAS pool,
`0o1001 ..= 0o7777` minus special-purpose codes and `0o1200`; for the STARS
beacon-bank pool, the configured bank — and, with no intervening release,
no code is ever returned twice (`List.Nodup`). -/
theorem createSquawk_in_range_and_no_reissue
    (spc : Nat → Bool) (bank : Nat) (p₀ p' : Finset Nat) (sqs : List Nat)
    (hchain : AllocChain p₀ sqs p') :
    (∀ sq ∈ sqs,
       (p₀ = getValidSquawkCodes spc →
          0o1001 ≤ sq ∧ sq ≤ 0o7777 ∧ spc sq = false ∧ sq ≠ 0o1200) ∧
       (p₀ = getBeaconBankSquawks bank →
          bank * 0o100 + 1 ≤ sq ∧ sq ≤ bank * 0o100 + 0o77)) ∧
    sqs.Nodup := by
  refine ⟨fun sq hsq => ⟨fun hp => ?_, fun hp => ?_⟩, hchain.nodup⟩
  · have := hchain.mem_start sq hsq
    rw [hp] at this
    exact mem_getValidSquawkCodes.mp this
  · have := hchain.mem_start sq hsq
    rw [hp] at this
    exact mem_getBeaconBankSquawks.mp this

/-- Witness for C1: allocating `0o101` from beacon bank 1 is a valid
allocation step, and the theorem yields its range bounds and distinctness. -/
theorem createSquawk_in_range_and_no_reissue_witness :
    (1 * 0o100 + 1 ≤ 0o101 ∧ 0o101 ≤ 1 * 0o100 + 0o77) ∧ List.Nodup [0o101] := by
  have h := createSquawk_in_range_and_no_reissue (fun _ => false) 1
    (getBeaconBankSquawks 1) ((getBeaconBankSquawks 1).erase 0o101) [0o101]
    (AllocChain.cons ⟨by decide, rfl⟩ (AllocChain.nil _))
  exact ⟨(h.1 0o101 (by simp)).2 rfl, h.2⟩

/-! ## Data model: flight plans, messages, track information -/

/-- Modelled from the spec: `av.FlightRules` (pkg/aviation, not under the
included sources) distinguishes VFR from IFR flight rules; its Go zero value
is a separate "unset" constant, represented here by `unknown`. -/
inductive FlightRules
  | unknown
  | ifr
  | vfr
deriving DecidableEq

/-- `CoordinationTime` (nas.go): a timestamp plus a type tag, `"A"` for
arrivals, `"P"` for departures, `"E"` for overflights.  Simulated time is
abstracted to integer minutes. -/
structure CoordinationTime where
  time : Int := 0
  ctype : String := ""
deriving DecidableEq

/-- `av.AdaptationFix` as used by nas.go: only the routing facilities are
relevant to this core. -/
structure AdaptationFix where
  toFacility : String := ""
  fromFacility : String := ""
deriving DecidableEq

/-- `STARSFlightPlan` (nas.go), with the fields of the embedded generic
`av.FlightPlan` flattened in.  `altitudeInt` is the embedded plan's integer
`Altitude` field, which the outer string `altitude` field shadows in Go. -/
structure STARSFlightPlan where
  rules : FlightRules := .unknown
  aircraftType : String := ""
  assignedSquawk : Nat := 0
  departureAirport : String := ""
  arrivalAirport : String := ""
  route : String := ""
  callsign : String := ""
  ecid : String := ""
  altitudeInt : Int := 0
  exit : String := ""
  flightPlanType : Nat := 0
  coordinationTime : CoordinationTime := {}
  coordinationFix : String := ""
  containedFacilities : List String := []
  altitude : String := ""
  sp1 : String := ""
  sp2 : String := ""
  initialController : String := ""
deriving DecidableEq

/-- `AircraftDataMessage` (nas.go). -/
structure AircraftDataMessage where
  departureLocation : String := ""
  arrivalLocation : String := ""
  numberOfAircraft : Nat := 0
  aircraftType : String := ""
  aircraftCategory : String := ""
  equipment : String := ""
deriving DecidableEq

/-- The message-type tag constants of nas.go (`Plan = iota`, ...);
the Go zero value is `plan`. -/
inductive MessageType
  | plan
  | amendment
  | cancellation
  | requestFlightPlan
  | departureDM
  | beaconTerminate
  | initiateTransfer
  | acceptRecallTransfer
deriving DecidableEq

/-- `FlightPlanMessage` (nas.go).  The embedded `TrackInformation` fragment
contributes the `identifier`, `trackOwner` and `handoffController` fields,
the only ones the message handlers read from it. -/
structure FlightPlanMessage where
  sourceID : String := ""
  messageType : MessageType := .plan
  flightID : String := ""
  aircraftData : AircraftDataMessage := {}
  bcn : Nat := 0
  coordinationFix : String := ""
  coordinationTime : CoordinationTime := {}
  altitude : String := ""
  route : String := ""
  identifier : String := ""
  trackOwner : String := ""
  handoffController : String := ""
deriving DecidableEq

/-- `TrackInformation` (nas.go).  The `RedirectedHandoff` field lives in the
aviation package, is never touched by this core, and is omitted. -/
structure TrackInformation where
  identifier : String := ""
  trackOwner : String := ""
  handoffController : String := ""
  flightPlan : Option STARSFlightPlan := none
  pointOut : String := ""
  pointOutHistory : List String := []
  sp1 : String := ""
  sp2 : String := ""
  autoAssociateFP : Bool := false
deriving DecidableEq

/-- Modelled from the spec: the event sink to which transfer accept/reject
notifications are published; only the fields nas.go sets are kept. -/
inductive EventType
  | transferAccepted
  | transferRejected
deriving DecidableEq

structure Event where
  etype : EventType
  callsign : String
  toController : String
deriving DecidableEq

/-! ## String helpers (Go stdlib / pkg/util, byte-oriented)

Go string indexing and `len` are byte-based; the tokens the claims exercise
are ASCII, where bytes and characters coincide.  `golen` is exact byte
length; slicing helpers operate on characters and agree with the Go code on
ASCII input (Go additionally panics on out-of-range slices, which cannot
occur on the inputs considered here). -/

/-- Go `len(s)`: the UTF-8 byte length. -/
def golen (s : String) : Nat :=
  s.data.foldl (fun n c => n + c.utf8Size) 0

/-- Go `rune(s[0])` for ASCII strings: the first character (Go panics on an
empty string; modelled as NUL, which no classifier accepts). -/
def goFront (s : String) : Char :=
  s.data.headD (Char.ofNat 0)

/-- `pre.data` is a prefix of `s.data`. -/
def listStartsWith : List Char → List Char → Bool
  | _, [] => true
  | [], _ :: _ => false
  | a :: as, b :: bs => a == b && listStartsWith as bs

/-- Go `strings.HasPrefix`. -/
def goHasPre (s pre : String) : Bool :=
  listStartsWith s.data pre.data

/-- Go `strings.TrimPrefix`. -/
def goTrimPre (s pre : String) : String :=
  if goHasPre s pre then ⟨s.data.drop pre.data.length⟩ else s

def hasSub : List Char → List Char → Bool
  | [], sub => listStartsWith [] sub
  | s@(_ :: rest), sub => listStartsWith s sub || hasSub rest sub

/-- Go `strings.Contains`. -/
def goContains (s sub : String) : Bool :=
  hasSub s.data sub.data

/-- Go `strings.Split(s, "/")`. -/
def splitSlashAux : List Char → List Char → List (List Char)
  | [], cur => [cur.reverse]
  | c :: rest, cur =>
      if c = '/' then cur.reverse :: splitSlashAux rest []
      else splitSlashAux rest (c :: cur)

def goSplitSlash (s : String) : List String :=
  (splitSlashAux s.data []).map (fun cs => ⟨cs⟩)

/-- Go `field[len(field)-3:]` for ASCII strings (Go slices bytes and panics
when the string is shorter than 3 bytes). -/
def goSuffix3 (s : String) : String :=
  ⟨s.data.drop (s.data.length - 3)⟩

/-- `util.IsAllNumbers`. -/
def isAllNumbers (s : String) : Bool :=
  s.data.all (fun c => c.isDigit)

/-- `util.IsAllLetters`. -/
def isAllLetters (s : String) : Bool :=
  s.data.all (fun c => c.isAlpha)

/-! ## Flight plan / message conversion -/

/-- Modelled from the spec: `av.FlightPlan.TypeWithoutSuffix` (pkg/aviation,
not under the included sources) splits the equipment suffix off the full
aircraft type string, returning the part before the first `/`. -/
def typeWithoutSuffix (acType : String) : String :=
  match goSplitSlash acType with
  | t :: _ => t
  | [] => acType

/-- `formatSourceID` (nas.go): facility identifier followed by the formatted
time; the Go `1504Z` clock format is abstracted along with time itself. -/
def formatSourceID (id : String) (t : Int) : String :=
  id ++ toString t ++ "Z"

/-- `STARSFlightPlan.Message` (nas.go lines 560-577). -/
def STARSFlightPlan.Message (fp : STARSFlightPlan) : FlightPlanMessage :=
  { bcn := fp.assignedSquawk
    altitude := fp.altitude
    route := fp.route
    aircraftData :=
      { departureLocation := fp.departureAirport
        arrivalLocation := fp.arrivalAirport
        numberOfAircraft := 1
        aircraftType := typeWithoutSuffix fp.aircraftType
        aircraftCategory := fp.aircraftType
        equipment := goTrimPre fp.aircraftType (typeWithoutSuffix fp.aircraftType) }
    flightID := fp.ecid ++ fp.callsign
    coordinationFix := fp.coordinationFix
    coordinationTime := fp.coordinationTime }

/-- `FlightPlanMessage.FlightPlan` (nas.go lines 876-898): convert a message
to a STARS flight plan; rules are VFR exactly when the altitude string
contains `"VFR"`, and a flight identifier longer than 3 characters is split
into ECID and callsign. -/
def FlightPlanMessage.FlightPlan (s : FlightPlanMessage) : STARSFlightPlan :=
  let base : STARSFlightPlan :=
    { rules := if goContains s.altitude "VFR" then .vfr else .ifr
      aircraftType := s.aircraftData.aircraftType
      assignedSquawk := s.bcn
      departureAirport := s.aircraftData.departureLocation
      arrivalAirport := s.aircraftData.arrivalLocation
      route := s.route
      coordinationFix := s.coordinationFix
      coordinationTime := s.coordinationTime
      altitude := s.altitude }
  if s.flightID.length > 3 then
    { base with ecid := s.flightID.take 3, callsign := s.flightID.drop 3 }
  else base

/-- Claim C4: Converting a message to a flight plan with
`FlightPlanMessage.FlightPlan` and back with `STARSFlightPlan.Message`
preserves the squawk (BCN), route, and altitude fields exactly. -/
theorem message_plan_roundtrip (m : FlightPlanMessage) :
    (m.FlightPlan).Message.bcn = m.bcn ∧
    (m.FlightPlan).Message.route = m.route ∧
    (m.FlightPlan).Message.altitude = m.altitude := by
  unfold FlightPlanMessage.FlightPlan STARSFlightPlan.Message
  by_cases h : m.flightID.length > 3 <;> simp [h]

/-! ## STARS facility actor -/

/-- `STARSComputer` (nas.go).  The inbox pointers (`ERAMInbox`,
`STARSInbox`) are replaced by explicit message outputs; the message queue
is passed to the sort pass explicitly. -/
structure STARSComputer where
  identifier : String := ""
  containedPlans : List (Nat × STARSFlightPlan) := []
  trackInformation : List (String × TrackInformation) := []
  availableSquawks : Finset Nat := ∅
deriving DecidableEq

/-- The zero value of `FlightPlanMessage` — what Go's `clear` on a slice of
messages writes into every slot. -/
def zeroFlightPlanMessage : FlightPlanMessage := {}

/-- One step of `STARSComputer.SortReceivedMessages` (nas.go lines
431-513): the switch on the message type, returning the updated computer
and the events posted to the event stream. -/
def starsProcessMessage (comp : STARSComputer) (msg : FlightPlanMessage) :
    STARSComputer × List Event :=
  match msg.messageType with
  | .plan =>
      if msg.bcn ≠ 0 then
        ({ comp with containedPlans := assocSet comp.containedPlans msg.bcn msg.FlightPlan }, [])
      else (comp, [])
  | .amendment =>
      ({ comp with containedPlans := assocSet comp.containedPlans msg.bcn msg.FlightPlan }, [])
  | .cancellation =>
      ({ comp with containedPlans := assocErase comp.containedPlans msg.bcn }, [])
  | .initiateTransfer =>
      match List.lookup msg.bcn comp.containedPlans with
      | some fp =>
          ({ comp with
              trackInformation := assocSet comp.trackInformation msg.identifier
                { trackOwner := msg.trackOwner
                  handoffController := msg.handoffController
                  flightPlan := some fp }
              containedPlans := assocErase comp.containedPlans msg.bcn },
            [{ etype := .transferAccepted, callsign := msg.identifier,
               toController := msg.trackOwner }])
      | none =>
          match List.lookup msg.identifier comp.trackInformation with
          | some trk =>
              ({ comp with
                  trackInformation := assocSet comp.trackInformation msg.identifier
                    { trackOwner := msg.trackOwner
                      handoffController := msg.handoffController
                      flightPlan := trk.flightPlan }
                  containedPlans := assocErase comp.containedPlans msg.bcn },
                [{ etype := .transferAccepted, callsign := msg.identifier,
                   toController := msg.trackOwner }])
          | none =>
              (comp,
                [{ etype := .transferRejected, callsign := msg.identifier,
                   toController := msg.trackOwner }])
  | .acceptRecallTransfer =>
      match List.lookup msg.identifier comp.trackInformation with
      | none => (comp, [])
      | some info =>
          if msg.trackOwner ≠ info.trackOwner then
            ({ comp with
                trackInformation := assocSet comp.trackInformation msg.identifier
                  { info with trackOwner := msg.trackOwner, handoffController := "" } }, [])
          else
            ({ comp with
                trackInformation := assocErase comp.trackInformation msg.identifier }, [])
  | _ => (comp, [])

/-- `STARSComputer.SortReceivedMessages` (nas.go): process every queued
message in order, then `clear` the queue — which on a Go slice zeroes every
element in place without changing its length. -/
def starsSortReceivedMessages (comp : STARSComputer) (queue : List FlightPlanMessage) :
    STARSComputer × List Event × List FlightPlanMessage :=
  let r := queue.foldl
    (fun acc m =>
      let s := starsProcessMessage acc.1 m
      (s.1, acc.2 ++ s.2))
    (comp, ([] : List Event))
  (r.1, r.2, queue.map (fun _ => zeroFlightPlanMessage))

/-- Claim C2: An `AcceptRecallTransfer` message at a STARS actor: with no
Track Information for the identifier it is ignored with no state change;
with matching owners the entry is deleted entirely (recall); with differing
owners the owner is overwritten and the handoff controller cleared
(accept) — for every prior-owner/incoming-owner pair. -/
theorem stars_acceptRecallTransfer_spec (comp : STARSComputer) (msg : FlightPlanMessage)
    (hmt : msg.messageType = .acceptRecallTransfer) :
    (List.lookup msg.identifier comp.trackInformation = none →
       starsProcessMessage comp msg = (comp, [])) ∧
    (∀ info, List.lookup msg.identifier comp.trackInformation = some info →
       msg.trackOwner = info.trackOwner →
         starsProcessMessage comp msg =
           ({ comp with
               trackInformation := assocErase comp.trackInformation msg.identifier }, [])) ∧
    (∀ info, List.lookup msg.identifier comp.trackInformation = some info →
       msg.trackOwner ≠ info.trackOwner →
         starsProcessMessage comp msg =
           ({ comp with
               trackInformation := assocSet comp.trackInformation msg.identifier
                 { info with trackOwner := msg.trackOwner, handoffController := "" } }, [])) := by
  refine ⟨fun hnone => ?_, fun info hsome heq => ?_, fun info hsome hne => ?_⟩
  · simp [starsProcessMessage, hmt, hnone]
  · simp [starsProcessMessage, hmt, hsome, heq]
  · simp [starsProcessMessage, hmt, hsome, hne]

/-- Witness for C2, on a one-track computer. -/
theorem stars_acceptRecallTransfer_spec_witness :
    (starsProcessMessage
        { identifier := "A80",
          trackInformation := [("DAL1", { trackOwner := "CLT" })] }
        { messageType := .acceptRecallTransfer, identifier := "DAL1", trackOwner := "CLT" } =
      ({ identifier := "A80", trackInformation := [] }, [])) ∧
    (starsProcessMessage
        { identifier := "A80",
          trackInformation := [("DAL1", { trackOwner := "CLT" })] }
        { messageType := .acceptRecallTransfer, identifier := "DAL1", trackOwner := "JAX" } =
      ({ identifier := "A80",
         trackInformation := [("DAL1", { trackOwner := "JAX", handoffController := "" })] },
       [])) := by
  constructor
  · have h := (stars_acceptRecallTransfer_spec
      { identifier := "A80", trackInformation := [("DAL1", { trackOwner := "CLT" })] }
      { messageType := .acceptRecallTransfer, identifier := "DAL1", trackOwner := "CLT" }
      rfl).2.1 { trackOwner := "CLT" } (by decide) rfl
    simpa [assocErase] using h
  · have h := (stars_acceptRecallTransfer_spec
      { identifier := "A80", trackInformation := [("DAL1", { trackOwner := "CLT" })] }
      { messageType := .acceptRecallTransfer, identifier := "DAL1", trackOwner := "JAX" }
      rfl).2.2 { trackOwner := "CLT" } (by decide) (by decide)
    simpa [assocSet] using h

/-- Claim C3: An `InitiateTransfer` message at a STARS actor holding a plan
under the message's squawk creates Track Information from that plan, removes
the plan from the contained-plans table, and posts a transfer-accepted
event; with neither a matching plan nor existing Track Information it posts
a transfer-rejected event. -/
theorem stars_initiateTransfer_spec (comp : STARSComputer) (msg : FlightPlanMessage)
    (hmt : msg.messageType = .initiateTransfer) :
    (∀ fp, List.lookup msg.bcn comp.containedPlans = some fp →
       starsProcessMessage comp msg =
         ({ comp with
             trackInformation := assocSet comp.trackInformation msg.identifier
               { trackOwner := msg.trackOwner
                 handoffController := msg.handoffController
                 flightPlan := some fp }
             containedPlans := assocErase comp.containedPlans msg.bcn },
           [{ etype := .transferAccepted, callsign := msg.identifier,
              toController := msg.trackOwner }])) ∧
    (List.lookup msg.bcn comp.containedPlans = none →
     List.lookup msg.identifier comp.trackInformation = none →
       starsProcessMessage comp msg =
         (comp,
           [{ etype := .transferRejected, callsign := msg.identifier,
              toController := msg.trackOwner }])) := by
  refine ⟨fun fp hfp => ?_, fun hplan htrk => ?_⟩
  · simp [starsProcessMessage, hmt, hfp]
  · simp [starsProcessMessage, hmt, hplan, htrk]

/-- Witness for C3: accept with a held plan, reject with nothing held. -/
theorem stars_initiateTransfer_spec_witness :
    (starsProcessMessage
        { identifier := "A80", containedPlans := [(0o5201, { callsign := "DAL1" })] }
        { messageType := .initiateTransfer, bcn := 0o5201, identifier := "DAL1",
          trackOwner := "ZTL", handoffController := "1A" } =
      ({ identifier := "A80",
         containedPlans := [],
         trackInformation := [("DAL1",
           { trackOwner := "ZTL", handoffController := "1A",
             flightPlan := some { callsign := "DAL1" } })] },
       [{ etype := .transferAccepted, callsign := "DAL1", toController := "ZTL" }])) ∧
    (starsProcessMessage
        { identifier := "A80" }
        { messageType := .initiateTransfer, bcn := 0o5201, identifier := "DAL1",
          trackOwner := "ZTL" } =
      ({ identifier := "A80" },
       [{ etype := .transferRejected, callsign := "DAL1", toController := "ZTL" }])) := by
  constructor
  · have h := (stars_initiateTransfer_spec
      { identifier := "A80", containedPlans := [(0o5201, { callsign := "DAL1" })] }
      { messageType := .initiateTransfer, bcn := 0o5201, identifier := "DAL1",
        trackOwner := "ZTL", handoffController := "1A" }
      rfl).1 { callsign := "DAL1" } (by decide)
    simpa [assocSet, assocErase] using h
  · have h := (stars_initiateTransfer_spec
      { identifier := "A80" }
      { messageType := .initiateTransfer, bcn := 0o5201, identifier := "DAL1",
        trackOwner := "ZTL" }
      rfl).2 rfl rfl
    simpa using h

/-! ## Flight-plan lookup by identifier (`STARSComputer.GetFlightPlan`) -/

/-- Modelled from the spec: `av.ParseSquawk` (pkg/aviation, not under the
included sources) parses a beacon code entered as text — exactly four octal
digits — and fails on anything else. -/
def ParseSquawk (s : String) : Option Nat :=
  if s.data.length = 4 ∧ s.data.all (fun c => '0' ≤ c ∧ c ≤ '7') then
    some (s.data.foldl (fun n c => 8 * n + (c.toNat - '0'.toNat)) 0)
  else none

/-- `STARSComputer.GetFlightPlan` (nas.go lines 402-418): a squawk-shaped
identifier is looked up in the squawk-keyed table only; otherwise the
contained plans are scanned for a matching callsign.  `none` is the
`ErrNoMatchingFlight` result.  (Go iterates the map in unspecified order;
the scan is modelled as the first list match.) -/
def STARSComputer.GetFlightPlan (comp : STARSComputer) (identifier : String) :
    Option STARSFlightPlan :=
  match ParseSquawk identifier with
  | some squawk =>
      match List.lookup squawk comp.containedPlans with
      | some fp => some fp
      | none => none
  | none =>
      match comp.containedPlans.find? (fun p => p.2.callsign == identifier) with
      | some p => some p.2
      | none => none

/-- Claim C10: For an identifier that parses as a squawk code,
`GetFlightPlan` consults only the squawk-keyed contained-plans table — its
result is exactly the table lookup, so it reports no-matching-flight
whenever no plan is stored under that squawk, regardless of any plan whose
callsign equals the identifier. -/
theorem getFlightPlan_squawk_only (comp : STARSComputer) (id : String) (sq : Nat)
    (hsq : ParseSquawk id = some sq) :
    comp.GetFlightPlan id = List.lookup sq comp.containedPlans := by
  unfold STARSComputer.GetFlightPlan
  rw [hsq]
  cases h2 : List.lookup sq comp.containedPlans <;> simp [h2]

/-- Witness for C10: `"1234"` parses as squawk `0o1234`; a computer holding
only a plan whose callsign is literally `"1234"` (under another squawk)
still reports no matching flight. -/
theorem getFlightPlan_squawk_only_witness :
    STARSComputer.GetFlightPlan
        { identifier := "A80", containedPlans := [(0o4444, { callsign := "1234" })] }
        "1234" = none := by
  have h := getFlightPlan_squawk_only
    { identifier := "A80", containedPlans := [(0o4444, { callsign := "1234" })] }
    "1234" 0o1234 (by decide)
  simpa using h

/-! ## ERAM facility actor -/

/-- Destination of an outgoing message: a STARS facility inbox
(`ToSTARSFacility`) or a peer ERAM inbox (`SendMessageToERAM`). -/
inductive Dest
  | stars (fac : String)
  | eram (fac : String)
deriving DecidableEq

/-- `ERAMComputer` (nas.go).  The adaptation (`av.ERAMAdaptation`, loaded
externally) is embedded as the iterable `coordinationFixes` table — fix
name to the altitude-resolved `Fix` lookup — plus the
`FixForRouteAndAltitude` resolver; the inbox pointers become the known
facility-identifier lists, with sends modelled as tagged outputs. -/
structure ERAMComputer where
  identifier : String := ""
  flightPlans : List (Nat × STARSFlightPlan) := []
  trackInformation : List (String × TrackInformation) := []
  availableSquawks : Finset Nat := ∅
  coordinationFixes : List (String × (String → Option AdaptationFix)) := []
  starsFacilities : List String := []
  eramFacilities : List String := []
  fixForRouteAndAltitude : String → String → Option String := fun _ _ => none

/-- Result of processing one message at an ERAM actor.  `fatal` models a Go
`panic` (the state holds whatever was mutated before the panic);
`dropHead` records the `RequestFlightPlan` handler's
`(*comp.ReceivedMessages)[1:]` quirk. -/
structure EramStep where
  comp : ERAMComputer
  outputs : List (Dest × FlightPlanMessage) := []
  fatal : Option String := none
  dropHead : Bool := false

/-- `ERAMComputer.AdaptationFixForAltitude`: look the fix up in the
adaptation and resolve it at the given altitude. -/
def adaptationFixForAltitude (comp : ERAMComputer) (fix alt : String) :
    Option AdaptationFix :=
  (List.lookup fix comp.coordinationFixes).bind (fun f => f alt)

/-- `ERAMComputer.ToSTARSFacility`: deliver to a known STARS facility,
`none` is `ErrUnknownFacility`. -/
def toSTARSFacility (comp : ERAMComputer) (fac : String) (msg : FlightPlanMessage) :
    Option (Dest × FlightPlanMessage) :=
  if fac ∈ comp.starsFacilities then some (.stars fac, msg) else none

/-- `ERAMComputer.SendMessageToERAM`: deliver to a known peer ERAM inbox,
`none` is `ErrUnknownFacility`. -/
def sendMessageToERAM (comp : ERAMComputer) (fac : String) (msg : FlightPlanMessage) :
    Option (Dest × FlightPlanMessage) :=
  if fac ∈ comp.eramFacilities then some (.eram fac, msg) else none

/-- `FlightPlanDepartureMessage` (nas.go lines 901-919). -/
def FlightPlanDepartureMessage (fp : STARSFlightPlan) (sendingFacility : String)
    (simTime : Int) : FlightPlanMessage :=
  { sourceID := formatSourceID sendingFacility simTime
    messageType := .plan
    flightID := fp.ecid ++ fp.callsign
    aircraftData :=
      { departureLocation := fp.departureAirport
        arrivalLocation := fp.arrivalAirport
        numberOfAircraft := 1
        aircraftType := typeWithoutSuffix fp.aircraftType
        aircraftCategory := fp.aircraftType
        equipment := goTrimPre fp.aircraftType (typeWithoutSuffix fp.aircraftType) }
    bcn := fp.assignedSquawk
    coordinationFix := fp.exit
    altitude := (if fp.rules = .vfr then "VFR/" else "") ++ toString fp.altitudeInt
    route := fp.route }

/-- Accumulator of the `InitiateTransfer` handler's loop over the
adaptation's coordination fixes. -/
structure ITAcc where
  ti : List (String × TrackInformation)
  outputs : List (Dest × FlightPlanMessage)
  fatal : Option String

/-- One iteration of the `InitiateTransfer` fix loop (nas.go lines
259-280): read the current entry's plan altitude (a nil plan pointer is a
Go panic), resolve the fix at that altitude, and either forward the message
onward (`Z`-prefixed destinations go to a peer ERAM) or, when this facility
is the destination, commit the Track Information locally. -/
def itFixStep (comp : ERAMComputer) (msg : FlightPlanMessage) (simTime : Int)
    (acc : ITAcc) (nf : String × (String → Option AdaptationFix)) : ITAcc :=
  if acc.fatal.isSome then acc
  else
    match List.lookup msg.identifier acc.ti with
    | none => { acc with fatal := some "nil pointer dereference" }
    | some entry =>
        match entry.flightPlan with
        | none => { acc with fatal := some "nil pointer dereference" }
        | some p =>
            match nf.2 p.altitude with
            | none => acc
            | some fix =>
                if nf.1 = msg.coordinationFix ∧ fix.toFacility ≠ comp.identifier then
                  let msg' := { msg with sourceID := formatSourceID comp.identifier simTime }
                  let outs :=
                    if golen fix.toFacility > 0 ∧ goFront fix.toFacility = 'Z' then
                      (sendMessageToERAM comp fix.toFacility msg').toList
                    else
                      (toSTARSFacility comp fix.toFacility msg').toList
                  { acc with outputs := acc.outputs ++ outs }
                else if nf.1 = msg.coordinationFix ∧ fix.toFacility = comp.identifier then
                  { acc with
                      ti := assocSet acc.ti msg.identifier
                        { trackOwner := msg.trackOwner
                          handoffController := msg.handoffController
                          flightPlan := List.lookup msg.bcn comp.flightPlans } }
                else acc

/-- One step of `ERAMComputer.SortMessages` (nas.go lines 199-305): the
switch on the message type. -/
def eramProcessMessage (comp : ERAMComputer) (msg : FlightPlanMessage) (simTime : Int) :
    EramStep :=
  match msg.messageType with
  | .plan =>
      let fp := msg.FlightPlan
      if fp.assignedSquawk = 0 then
        { comp := comp, fatal := some "zero squawk" }
      else
        let resolved : Option STARSFlightPlan :=
          if fp.coordinationFix = "" then
            match comp.fixForRouteAndAltitude fp.route fp.altitude with
            | some f => some { fp with coordinationFix := f }
            | none => none
          else some fp
        match resolved with
        | none =>
            -- coordination fix not found: the plan (already stored, with its
            -- empty fix) stays, a warning is logged, the message is dropped
            { comp := { comp with flightPlans := assocSet comp.flightPlans msg.bcn fp } }
        | some fp' =>
            let comp' := { comp with flightPlans := assocSet comp.flightPlans msg.bcn fp' }
            match adaptationFixForAltitude comp fp'.coordinationFix fp'.altitude with
            | some af =>
                if af.toFacility ≠ comp.identifier then
                  { comp := comp', outputs := (toSTARSFacility comp af.toFacility msg).toList }
                else { comp := comp' }
            | none => { comp := comp' }
  | .requestFlightPlan =>
      let facility := msg.sourceID.take 3
      let outs :=
        match List.lookup msg.bcn comp.flightPlans with
        | some plan =>
            (toSTARSFacility comp facility
              (FlightPlanDepartureMessage plan comp.identifier simTime)).toList
        | none => []
      { comp := comp, outputs := outs, dropHead := true }
  | .departureDM => { comp := comp }
  | .beaconTerminate => { comp := comp }
  -- Amendment and Cancellation do not appear in the ERAM switch: no-ops
  | .amendment => { comp := comp }
  | .cancellation => { comp := comp }
  | .initiateTransfer =>
      let ti0 :=
        match List.lookup msg.identifier comp.trackInformation with
        | none =>
            assocSet comp.trackInformation msg.identifier
              { flightPlan := List.lookup msg.bcn comp.flightPlans }
        | some _ => comp.trackInformation
      let ti1 :=
        match List.lookup msg.identifier ti0 with
        | some e =>
            assocSet ti0 msg.identifier
              { e with trackOwner := msg.trackOwner, handoffController := msg.handoffController }
        | none => ti0
      let pool1 := insert msg.bcn comp.availableSquawks
      let acc := comp.coordinationFixes.foldl (itFixStep comp msg simTime)
        { ti := ti1, outputs := [], fatal := none }
      { comp := { comp with trackInformation := acc.ti, availableSquawks := pool1 },
        outputs := acc.outputs, fatal := acc.fatal }
  | .acceptRecallTransfer =>
      match List.lookup msg.coordinationFix comp.coordinationFixes with
      | none => { comp := comp }
      | some adaptationFixes =>
          let st :=
            match List.lookup msg.identifier comp.trackInformation with
            | some info =>
                (assocSet comp.trackInformation msg.identifier
                    { info with trackOwner := msg.trackOwner },
                 if msg.trackOwner = info.trackOwner then insert msg.bcn comp.availableSquawks
                 else comp.availableSquawks)
            | none => (comp.trackInformation, comp.availableSquawks)
          let comp' := { comp with trackInformation := st.1, availableSquawks := st.2 }
          match List.lookup msg.identifier st.1 with
          | none => { comp := comp', fatal := some "nil pointer dereference" }
          | some info2 =>
              match info2.flightPlan with
              | none => { comp := comp', fatal := some "nil pointer dereference" }
              | some p =>
                  match adaptationFixes p.altitude with
                  | none => { comp := comp' }
                  | some adaptationFix =>
                      if adaptationFix.fromFacility ≠ comp.identifier then
                        { comp := comp',
                          outputs :=
                            (sendMessageToERAM comp adaptationFix.fromFacility msg).toList }
                      else { comp := comp' }

/-- Accumulator of the `SortMessages` drain loop. -/
structure EramSortAcc where
  comp : ERAMComputer
  outputs : List (Dest × FlightPlanMessage) := []
  drops : Nat := 0
  fatal : Option String := none

def eramSortStep (simTime : Int) (acc : EramSortAcc) (msg : FlightPlanMessage) :
    EramSortAcc :=
  if acc.fatal.isSome then acc
  else
    let r := eramProcessMessage acc.comp msg simTime
    { comp := r.comp
      outputs := acc.outputs ++ r.outputs
      drops := acc.drops + (if r.dropHead then 1 else 0)
      fatal := r.fatal }

/-- `ERAMComputer.SortMessages` (nas.go): drain the snapshot of the queue
in order; a panic propagates and aborts the pass.  On normal completion the
final `clear(*comp.ReceivedMessages)` — a Go slice `clear` — zeroes every
element of the current queue view in place, leaving its length unchanged;
the `RequestFlightPlan` quirk has advanced that view by one per such
message. -/
def eramSortMessages (comp : ERAMComputer) (queue : List FlightPlanMessage)
    (simTime : Int) : EramSortAcc × List FlightPlanMessage :=
  let acc := queue.foldl (eramSortStep simTime) { comp := comp }
  (acc,
   if acc.fatal.isSome then queue.drop acc.drops
   else (queue.drop acc.drops).map (fun _ => zeroFlightPlanMessage))

/-- The plan carried by a message has the message's BCN as its squawk. -/
theorem flightPlan_assignedSquawk (m : FlightPlanMessage) :
    m.FlightPlan.assignedSquawk = m.bcn := by
  unfold FlightPlanMessage.FlightPlan
  by_cases h : m.flightID.length > 3 <;> simp [h]

/-- Claim C6: A `Plan` message carrying squawk zero is rejected: the ERAM
handler hits the `panic("zero squawk")` defensive invariant with its state
untouched and nothing sent, and the STARS handler skips the store — neither
flight-plan table gains or loses an entry. -/
theorem plan_zero_squawk_rejected (ecomp : ERAMComputer) (scomp : STARSComputer)
    (msg : FlightPlanMessage) (simTime : Int)
    (hmt : msg.messageType = .plan) (hz : msg.bcn = 0) :
    (eramProcessMessage ecomp msg simTime).fatal = some "zero squawk" ∧
    (eramProcessMessage ecomp msg simTime).comp = ecomp ∧
    (eramProcessMessage ecomp msg simTime).outputs = [] ∧
    starsProcessMessage scomp msg = (scomp, []) := by
  have hsq : msg.FlightPlan.assignedSquawk = 0 := by
    rw [flightPlan_assignedSquawk, hz]
  refine ⟨?_, ?_, ?_, ?_⟩
  · simp [eramProcessMessage, hmt, hsq]
  · simp [eramProcessMessage, hmt, hsq]
  · simp [eramProcessMessage, hmt, hsq]
  · simp [starsProcessMessage, hmt, hz]

/-- Witness for C6 on concrete empty facilities. -/
theorem plan_zero_squawk_rejected_witness :
    (eramProcessMessage { identifier := "ZNY" } { messageType := .plan, bcn := 0 } 0).fatal
      = some "zero squawk" ∧
    (eramProcessMessage { identifier := "ZNY" } { messageType := .plan, bcn := 0 } 0).comp
      = { identifier := "ZNY" } ∧
    starsProcessMessage { identifier := "A80" } { messageType := .plan, bcn := 0 }
      = ({ identifier := "A80" }, []) := by
  have h := plan_zero_squawk_rejected { identifier := "ZNY" } { identifier := "A80" }
    { messageType := .plan, bcn := 0 } 0 rfl rfl
  exact ⟨h.1, h.2.1, h.2.2.2⟩

/-! ## C7: the ERAM `InitiateTransfer` handler -/

def c7comp : ERAMComputer :=
  { identifier := "ZTL"
    flightPlans := [(0o101, { callsign := "DAL1", altitude := "310" })]
    availableSquawks := {0o101} }

def c7msg : FlightPlanMessage :=
  { messageType := .initiateTransfer, bcn := 0o101, identifier := "DAL1",
    trackOwner := "A80", handoffController := "2B" }

/-- Claim C7, counterexample: The claim says the message's squawk is retired
from (removed from) the available pool, so after processing the
`InitiateTransfer` message its code `0o101` would be absent; but the
handler executes `comp.AvailableSquawks[msg.BCN] = nil`, a Go map *insert*,
and the code is present in the pool afterwards. -/
theorem eram_initiateTransfer_pool_counterexample :
    0o101 ∈ (eramProcessMessage c7comp c7msg 0).comp.availableSquawks := by
  decide

/-- Invariant of the `InitiateTransfer` fix loop: once the identifier's
entry holds the message's owner, handoff controller, and the plan stored
under the message's squawk, every loop iteration preserves it (forward
iterations only add outputs; the stay-here iteration rewrites the entry
with the same value), and no iteration panics. -/
theorem itFixLoop_invariant (comp : ERAMComputer) (msg : FlightPlanMessage)
    (simTime : Int) (fp : STARSFlightPlan)
    (hfp : List.lookup msg.bcn comp.flightPlans = some fp)
    (l : List (String × (String → Option AdaptationFix))) (acc : ITAcc)
    (hfatal : acc.fatal = none)
    (hentry : List.lookup msg.identifier acc.ti =
      some { trackOwner := msg.trackOwner, handoffController := msg.handoffController,
             flightPlan := some fp }) :
    (l.foldl (itFixStep comp msg simTime) acc).fatal = none ∧
    List.lookup msg.identifier (l.foldl (itFixStep comp msg simTime) acc).ti =
      some { trackOwner := msg.trackOwner, handoffController := msg.handoffController,
             flightPlan := some fp } := by
  induction l generalizing acc with
  | nil => exact ⟨hfatal, hentry⟩
  | cons nf rest ih =>
      have hstep :
          (itFixStep comp msg simTime acc nf).fatal = none ∧
          List.lookup msg.identifier (itFixStep comp msg simTime acc nf).ti =
            some { trackOwner := msg.trackOwner, handoffController := msg.handoffController,
                   flightPlan := some fp } := by
        unfold itFixStep
        rw [hfatal]
        simp only [Option.isSome_none, Bool.false_eq_true, if_false, hentry]
        cases hfix : nf.2 fp.altitude with
        | none => exact ⟨hfatal, hentry⟩
        | some fix =>
            by_cases h1 : nf.1 = msg.coordinationFix ∧ fix.toFacility ≠ comp.identifier
            · simp [h1, hfatal, hentry]
            · simp only [h1, if_false]
              by_cases h2 : nf.1 = msg.coordinationFix ∧ fix.toFacility = comp.identifier
              · simp [h2, hfatal, lookup_assocSet, hfp]
              · simp [h2, hfatal, hentry]
      exact ih _ hstep.1 hstep.2

/-- Claim C7, amended: An `InitiateTransfer` message at an ERAM actor with no
existing Track Information for the identifier creates an entry seeded from
the flight plan stored under the message's squawk, sets its owner and
handoff controller from the message — and *adds* the message's squawk to
the available-squawk pool (the handler performs a Go map insert, not a
delete, so the code becomes available rather than retired). -/
theorem eram_initiateTransfer_spec (comp : ERAMComputer) (msg : FlightPlanMessage)
    (simTime : Int) (fp : STARSFlightPlan)
    (hmt : msg.messageType = .initiateTransfer)
    (hti : List.lookup msg.identifier comp.trackInformation = none)
    (hfp : List.lookup msg.bcn comp.flightPlans = some fp) :
    (eramProcessMessage comp msg simTime).fatal = none ∧
    List.lookup msg.identifier (eramProcessMessage comp msg simTime).comp.trackInformation =
      some { trackOwner := msg.trackOwner, handoffController := msg.handoffController,
             flightPlan := some fp } ∧
    msg.bcn ∈ (eramProcessMessage comp msg simTime).comp.availableSquawks := by
  have hti0 : List.lookup msg.identifier
      (assocSet comp.trackInformation msg.identifier
        { flightPlan := List.lookup msg.bcn comp.flightPlans }) =
      some { flightPlan := some fp } := by
    rw [lookup_assocSet, if_pos rfl, hfp]
  have hloop := itFixLoop_invariant comp msg simTime fp hfp comp.coordinationFixes
    { ti := assocSet
        (assocSet comp.trackInformation msg.identifier
          { flightPlan := List.lookup msg.bcn comp.flightPlans })
        msg.identifier
        { trackOwner := msg.trackOwner, handoffController := msg.handoffController,
          flightPlan := some fp }
      outputs := [], fatal := none }
    rfl (by rw [lookup_assocSet, if_pos rfl])
  refine ⟨?_, ?_, ?_⟩
  · simp only [eramProcessMessage, hmt, hti, hti0]
    exact hloop.1
  · simp only [eramProcessMessage, hmt, hti, hti0]
    exact hloop.2
  · simp only [eramProcessMessage, hmt, hti, hti0]
    exact Finset.mem_insert_self _ _

/-- Witness for C7's amended theorem, with a one-fix adaptation that routes
the coordination fix back to this facility (the stay-here branch). -/
theorem eram_initiateTransfer_spec_witness :
    (eramProcessMessage
        { identifier := "ZTL"
          flightPlans := [(0o101, { callsign := "DAL1", altitude := "310" })]
          coordinationFixes := [("ODF", fun _ => some { toFacility := "ZTL" })] }
        { messageType := .initiateTransfer, bcn := 0o101, identifier := "DAL1",
          trackOwner := "A80", handoffController := "2B", coordinationFix := "ODF" }
        0).fatal = none ∧
    List.lookup "DAL1"
      (eramProcessMessage
        { identifier := "ZTL"
          flightPlans := [(0o101, { callsign := "DAL1", altitude := "310" })]
          coordinationFixes := [("ODF", fun _ => some { toFacility := "ZTL" })] }
        { messageType := .initiateTransfer, bcn := 0o101, identifier := "DAL1",
          trackOwner := "A80", handoffController := "2B", coordinationFix := "ODF" }
        0).comp.trackInformation =
      some { trackOwner := "A80", handoffController := "2B",
             flightPlan := some { callsign := "DAL1", altitude := "310" } } ∧
    0o101 ∈ (eramProcessMessage
        { identifier := "ZTL"
          flightPlans := [(0o101, { callsign := "DAL1", altitude := "310" })]
          coordinationFixes := [("ODF", fun _ => some { toFacility := "ZTL" })] }
        { messageType := .initiateTransfer, bcn := 0o101, identifier := "DAL1",
          trackOwner := "A80", handoffController := "2B", coordinationFix := "ODF" }
        0).comp.availableSquawks :=
  eram_initiateTransfer_spec
    { identifier := "ZTL"
      flightPlans := [(0o101, { callsign := "DAL1", altitude := "310" })]
      coordinationFixes := [("ODF", fun _ => some { toFacility := "ZTL" })] }
    { messageType := .initiateTransfer, bcn := 0o101, identifier := "DAL1",
      trackOwner := "A80", handoffController := "2B", coordinationFix := "ODF" }
    0 { callsign := "DAL1", altitude := "310" } rfl rfl rfl

/-! ## C8: the sort pass does not empty the queue -/

def c8eram : ERAMComputer := { identifier := "ZNY" }

def c8msg : FlightPlanMessage :=
  { messageType := .plan, bcn := 0o1001, coordinationFix := "LGA",
    altitude := "310", route := "J75 LGA" }

def c8smsg : FlightPlanMessage := { messageType := .plan, bcn := 0o1001 }

/-- Claim C8: After a sort pass over a queue holding one ordinary `Plan`
message, the received-message queue is *not* empty: Go's `clear` on a slice
zeroes the elements in place and keeps the length, so the queue still holds
one zero-valued message (message type `Plan`, squawk 0) — and on the next
tick the ERAM handler's own `panic("zero squawk")` invariant fires on it.
The STARS pass leaves its queue zeroed but non-empty the same way. -/
theorem sortPass_leaves_zeroed_queue :
    (eramSortMessages c8eram [c8msg] 0).1.fatal = none ∧
    (eramSortMessages c8eram [c8msg] 0).2 = [zeroFlightPlanMessage] ∧
    ([zeroFlightPlanMessage] : List FlightPlanMessage) ≠ [] ∧
    (eramSortMessages (eramSortMessages c8eram [c8msg] 0).1.comp
        [zeroFlightPlanMessage] 0).1.fatal = some "zero squawk" ∧
    (starsSortReceivedMessages { identifier := "A80" } [c8smsg]).2.2 =
      [zeroFlightPlanMessage] := by
  decide

/-! ## Timed flight-plan transmission (`SendFlightPlans` / `SendFlightPlan`) -/

/-- `TransmitFPMessageTime` (nas.go): the 30-minute lead interval, in the
abstract integer minutes of this embedding. -/
def TransmitFPMessageTime : Int := 30

/-- Result of evaluating one plan for transmission: the (possibly updated)
plan and the messages sent. -/
structure SendPlanResult where
  fp : STARSFlightPlan
  outputs : List (Dest × FlightPlanMessage)

/-- `ERAMComputer.SendFlightPlan` (nas.go lines 158-176): build the Plan
message, re-resolve the coordination fix, deliver to the named STARS
facility or — on `ErrUnknownFacility` — fall back to the owning center's
inbox (`av.DB.TRACONs[tracon].ARTCC`, external data passed in as
`traconARTCC`), and append the adaptation fix's destination facility to the
plan's already-sent-to list. -/
def SendFlightPlan (comp : ERAMComputer) (fp : STARSFlightPlan) (tracon : String)
    (simTime : Int) (traconARTCC : String → String) : SendPlanResult :=
  let msg := { fp.Message with
               messageType := .plan
               sourceID := formatSourceID comp.identifier simTime }
  match List.lookup fp.coordinationFix comp.coordinationFixes with
  | none => ⟨fp, []⟩
  | some fixes =>
      match fixes fp.altitude with
      | none => ⟨fp, []⟩
      | some adaptFix =>
          let outs :=
            match toSTARSFacility comp tracon msg with
            | some o => [o]
            | none => (sendMessageToERAM comp (traconARTCC tracon) msg).toList
          ⟨{ fp with containedFacilities := fp.containedFacilities ++ [adaptFix.toFacility] },
            outs⟩

/-- `sendPlanIfReady` inside `ERAMComputer.SendFlightPlans` (nas.go lines
127-140): skip the plan while `simTime + 30min` is strictly before its
coordination time; otherwise resolve its coordination fix and send unless
the resolved destination facility is already in the plan's
already-sent-to list. -/
def sendPlanIfReady (comp : ERAMComputer) (fp : STARSFlightPlan) (tracon : String)
    (simTime : Int) (traconARTCC : String → String) : SendPlanResult :=
  if simTime + TransmitFPMessageTime < fp.coordinationTime.time then ⟨fp, []⟩
  else
    match List.lookup fp.coordinationFix comp.coordinationFixes with
    | none => ⟨fp, []⟩
    | some coordFix =>
        match coordFix fp.altitude with
        | none => ⟨fp, []⟩
        | some adaptFix =>
            if adaptFix.toFacility ∈ fp.containedFacilities then ⟨fp, []⟩
            else SendFlightPlan comp fp tracon simTime traconARTCC

/-- Claim C5: Timed transmission of a plan with coordination time `T`:
(1) while simulated time is strictly earlier than `T − 30min` nothing is
sent and the plan is unchanged; (2) once simulated time reaches or passes
that threshold, with the coordination fix resolving and the destination not
yet sent to, the plan is sent (to the named, known STARS facility) and the
destination is appended to its already-sent-to list; (3) a destination
already in that list is never sent to again — in particular, immediately
re-evaluating the updated plan of (2) sends nothing. -/
theorem sendFlightPlans_timing_and_once (comp : ERAMComputer) (fp : STARSFlightPlan)
    (tracon : String) (simTime : Int) (traconARTCC : String → String) :
    (simTime + TransmitFPMessageTime < fp.coordinationTime.time →
       sendPlanIfReady comp fp tracon simTime traconARTCC = ⟨fp, []⟩) ∧
    (∀ coordFix adaptFix,
       ¬ simTime + TransmitFPMessageTime < fp.coordinationTime.time →
       List.lookup fp.coordinationFix comp.coordinationFixes = some coordFix →
       coordFix fp.altitude = some adaptFix →
       adaptFix.toFacility ∉ fp.containedFacilities →
       tracon ∈ comp.starsFacilities →
         sendPlanIfReady comp fp tracon simTime traconARTCC =
           ⟨{ fp with containedFacilities :=
                fp.containedFacilities ++ [adaptFix.toFacility] },
             [(.stars tracon,
               { fp.Message with
                 messageType := .plan
                 sourceID := formatSourceID comp.identifier simTime })]⟩) ∧
    (∀ coordFix adaptFix,
       List.lookup fp.coordinationFix comp.coordinationFixes = some coordFix →
       coordFix fp.altitude = some adaptFix →
       adaptFix.toFacility ∈ fp.containedFacilities →
         sendPlanIfReady comp fp tracon simTime traconARTCC = ⟨fp, []⟩) ∧
    (∀ coordFix adaptFix,
       ¬ simTime + TransmitFPMessageTime < fp.coordinationTime.time →
       List.lookup fp.coordinationFix comp.coordinationFixes = some coordFix →
       coordFix fp.altitude = some adaptFix →
       adaptFix.toFacility ∉ fp.containedFacilities →
       tracon ∈ comp.starsFacilities →
         sendPlanIfReady comp
           (sendPlanIfReady comp fp tracon simTime traconARTCC).fp
           tracon simTime traconARTCC =
         ⟨(sendPlanIfReady comp fp tracon simTime traconARTCC).fp, []⟩) := by
  refine ⟨fun hlt => ?_, fun coordFix adaptFix hge hcf haf hnotin hknown => ?_,
    fun coordFix adaptFix hcf haf hin => ?_,
    fun coordFix adaptFix hge hcf haf hnotin hknown => ?_⟩
  · simp [sendPlanIfReady, hlt]
  · simp [sendPlanIfReady, hge, hcf, haf, hnotin, SendFlightPlan,
      toSTARSFacility, hknown]
  · simp [sendPlanIfReady, hcf, haf, hin]
  · have hsent : sendPlanIfReady comp fp tracon simTime traconARTCC =
        ⟨{ fp with containedFacilities :=
             fp.containedFacilities ++ [adaptFix.toFacility] },
          [(.stars tracon,
            { fp.Message with
              messageType := .plan
              sourceID := formatSourceID comp.identifier simTime })]⟩ := by
      simp [sendPlanIfReady, hge, hcf, haf, hnotin, SendFlightPlan,
        toSTARSFacility, hknown]
    rw [hsent]
    simp [sendPlanIfReady, hge, hcf, haf]

/-- Witness for C5: a concrete plan with coordination time 100 at a
facility that knows its coordination fix and TRACON — part (1) at time 0,
and parts (2) then (3) at time 70 = T − 30. -/
theorem sendFlightPlans_timing_and_once_witness :
    (sendPlanIfReady
        { identifier := "ZTL", starsFacilities := ["A80"],
          coordinationFixes := [("ODF", fun _ => some { toFacility := "A80" })] }
        { callsign := "DAL1", coordinationFix := "ODF", altitude := "310",
          coordinationTime := { time := 100 } }
        "A80" 0 (fun _ => "ZTL") =
      ⟨{ callsign := "DAL1", coordinationFix := "ODF", altitude := "310",
         coordinationTime := { time := 100 } }, []⟩) ∧
    ((sendPlanIfReady
        { identifier := "ZTL", starsFacilities := ["A80"],
          coordinationFixes := [("ODF", fun _ => some { toFacility := "A80" })] }
        { callsign := "DAL1", coordinationFix := "ODF", altitude := "310",
          coordinationTime := { time := 100 } }
        "A80" 70 (fun _ => "ZTL")).fp.containedFacilities = ["A80"]) ∧
    (sendPlanIfReady
        { identifier := "ZTL", starsFacilities := ["A80"],
          coordinationFixes := [("ODF", fun _ => some { toFacility := "A80" })] }
        (sendPlanIfReady
          { identifier := "ZTL", starsFacilities := ["A80"],
            coordinationFixes := [("ODF", fun _ => some { toFacility := "A80" })] }
          { callsign := "DAL1", coordinationFix := "ODF", altitude := "310",
            coordinationTime := { time := 100 } }
          "A80" 70 (fun _ => "ZTL")).fp
        "A80" 70 (fun _ => "ZTL")).outputs = [] := by
  have h := sendFlightPlans_timing_and_once
    { identifier := "ZTL", starsFacilities := ["A80"],
      coordinationFixes := [("ODF", fun _ => some { toFacility := "A80" })] }
    { callsign := "DAL1", coordinationFix := "ODF", altitude := "310",
      coordinationTime := { time := 100 } }
    "A80" 0 (fun _ => "ZTL")
  have h70 := sendFlightPlans_timing_and_once
    { identifier := "ZTL", starsFacilities := ["A80"],
      coordinationFixes := [("ODF", fun _ => some { toFacility := "A80" })] }
    { callsign := "DAL1", coordinationFix := "ODF", altitude := "310",
      coordinationTime := { time := 100 } }
    "A80" 70 (fun _ => "ZTL")
  refine ⟨h.1 (by decide), ?_, ?_⟩
  · rw [h70.2.1 (fun _ => some { toFacility := "A80" }) { toFacility := "A80" }
      (by decide) rfl rfl (by decide) (by decide)]
    rfl
  · rw [h70.2.2.2 (fun _ => some { toFacility := "A80" }) { toFacility := "A80" }
      (by decide) rfl rfl (by decide) (by decide)]

/-! ## Abbreviated flight-plan parser (`ParseAbbreviatedFPFields`)

Lengths are Go byte lengths (`golen`).  The aircraft-performance database
(`av.DB.AircraftPerformance`, external data) is abstracted as a membership
predicate `perfDB`. -/

inductive ParseErr
  | illegalACID
  | illegalScratchpad
  | illegalACType
  | invalidAbbreviatedFP
deriving DecidableEq

/-- `AbbreviatedFPFields` (nas.go); the stored `Error` is `none` when no
parse error was recorded. -/
structure AbbreviatedFPFields where
  acid : String := ""
  bcn : Nat := 0
  controllingPosition : String := ""
  typeOfFlight : String := ""
  sc1 : String := ""
  sc2 : String := ""
  aircraftType : String := ""
  requestedALT : String := ""
  rules : FlightRules := .unknown
  departureAirport : String := ""
  error : Option ParseErr := none
deriving DecidableEq

/-- The slice of `STARSFacilityAdaptation` the parser reads: the two
`AllowLongScratchpad` flags. -/
structure STARSFacilityAdaptation where
  allowLongScratchpad0 : Bool := false
  allowLongScratchpad1 : Bool := false
deriving DecidableEq

/-- `STARSTriangleCharacter` (nas.go): the rune `0x80`. -/
def STARSTriangleCharacter : String := ⟨[Char.ofNat 0x80]⟩

def badScratchpads : List String := ["NAT", "CST", "AMB", "RDR", "ADB", "XXX"]

/-- The scratchpad-1 block of the token loop (no `continue`: control always
falls through to the next test). -/
def sc1Stage (adapt : STARSFacilityAdaptation) (out : AbbreviatedFPFields)
    (field : String) : AbbreviatedFPFields × Bool :=
  if (goHasPre field STARSTriangleCharacter && decide (golen field > 3) &&
        decide (golen field ≤ 5))
      || (decide (golen field ≤ 6) && adapt.allowLongScratchpad0) then
    if field ∈ badScratchpads then ({ out with error := some .illegalScratchpad }, true)
    else
      let out' :=
        if isAllNumbers (goSuffix3 field) then { out with error := some .illegalScratchpad }
        else out
      ({ out' with sc1 := field }, false)
  else (out, false)

/-- The scratchpad-2 block of the token loop (also falls through). -/
def sc2Stage (adapt : STARSFacilityAdaptation) (out : AbbreviatedFPFields)
    (field : String) : AbbreviatedFPFields × Bool :=
  if goHasPre field "+" && decide (golen field > 2) &&
      (decide (golen field ≤ 4) || (decide (golen field ≤ 5) && adapt.allowLongScratchpad1)) then
    if field ∈ badScratchpads then ({ out with error := some .illegalScratchpad }, true)
    else
      let out' :=
        if isAllNumbers (goSuffix3 field) then { out with error := some .illegalScratchpad }
        else out
      ({ out' with sc2 := field }, false)
  else (out, false)

/-- The aircraft-type block (`switch len(acFields)`), entered when the token
has at least 4 bytes; each arm ends in the loop's `continue` unless it
returns with `ErrInvalidAbbreviatedFP`. -/
def acTypeStage (perfDB : String → Bool) (out : AbbreviatedFPFields)
    (field : String) : AbbreviatedFPFields × Bool :=
  match goSplitSlash field with
  | [_] =>
      if perfDB field then ({ out with aircraftType := field }, false)
      else ({ out with error := some .illegalACType }, false)
  | [a0, a1] =>
      if isAllNumbers a0 then
        if !(goFront a1).isAlpha then ({ out with error := some .invalidAbbreviatedFP }, true)
        else if !perfDB a1 then ({ out with error := some .illegalACType }, false)
        else ({ out with aircraftType := field }, false)
      else
        if golen a1 > 1 || !isAllLetters a1 then
          ({ out with error := some .invalidAbbreviatedFP }, true)
        else if !perfDB a0 then ({ out with error := some .illegalACType }, false)
        else ({ out with aircraftType := field }, false)
  | [_, a1, a2] =>
      if golen a2 > 1 || !isAllLetters a2 then
        ({ out with error := some .invalidAbbreviatedFP }, true)
      else if !(goFront a1).isAlpha then
        ({ out with error := some .invalidAbbreviatedFP }, true)
      else if !perfDB a1 then ({ out with error := some .illegalACType }, false)
      else ({ out with aircraftType := field }, false)
  | _ => (out, false)

/-- One token of `ParseAbbreviatedFPFields` (nas.go lines 933-1061).  The
`Bool` is `true` when the Go code `return`s early.  The 2-byte
type-of-flight sub-branch and the final 2-byte `.V`/`.P`/`.E` rules branch
of the source are unreachable: every 2-byte token that is not a squawk was
already consumed by the controlling-position branch, so they are not
reproduced here. -/
def parseOneField (adapt : STARSFacilityAdaptation) (perfDB : String → Bool)
    (out0 : AbbreviatedFPFields) (field : String) : AbbreviatedFPFields × Bool :=
  match ParseSquawk field with
  | some sq => ({ out0 with bcn := sq }, false)
  | none =>
      if golen field = 2 then ({ out0 with controllingPosition := field }, false)
      else
        let out1 :=
          if golen field = 1 then
            if field = "A" then { out0 with typeOfFlight := "arrival" }
            else if field = "P" then { out0 with typeOfFlight := "departure" }
            else if field = "E" then { out0 with typeOfFlight := "overflight" }
            else out0
          else out0
        match sc1Stage adapt out1 field with
        | (out2, true) => (out2, true)
        | (out2, false) =>
            match sc2Stage adapt out2 field with
            | (out3, true) => (out3, true)
            | (out3, false) =>
                if golen field ≥ 4 then acTypeStage perfDB out3 field
                else if golen field = 3 && isAllNumbers field then
                  ({ out3 with requestedALT := field }, false)
                else (out3, false)

def parseFieldsLoop (adapt : STARSFacilityAdaptation) (perfDB : String → Bool) :
    AbbreviatedFPFields → List String → AbbreviatedFPFields
  | out, [] => out
  | out, f :: rest =>
      match parseOneField adapt perfDB out f with
      | (out', true) => out'
      | (out', false) => parseFieldsLoop adapt perfDB out' rest

/-- `ParseAbbreviatedFPFields` (nas.go lines 924-1063).  The first token
must be a 2-7-byte identifier starting with a letter, else
`ErrIllegalACID`; the remaining tokens run through the classifier loop.
(Go indexes `fields[0]` unconditionally and would panic on an empty token
list; that case is mapped to the `ErrIllegalACID` failure.) -/
def ParseAbbreviatedFPFields (adapt : STARSFacilityAdaptation) (perfDB : String → Bool)
    (fields : List String) : AbbreviatedFPFields :=
  match fields with
  | [] => { error := some .illegalACID }
  | f0 :: rest =>
      if 2 ≤ golen f0 ∧ golen f0 ≤ 7 ∧ (goFront f0).isAlpha then
        parseFieldsLoop adapt perfDB { acid := f0 } rest
      else { error := some .illegalACID }

/-- Claim C9, counterexample: On `["UAL123", "1234", "P35", "B738", ".V"]`
(with `B738` in the performance database and long scratchpads off) the
claim's expected outputs do not hold: `"P35"` is 3 bytes long, so the
type-of-flight branch (which requires at most 2 bytes) never fires, and
`".V"` is consumed by the 2-byte controlling-position branch before the
rules branch can run. -/
theorem parseAbbreviatedFP_counterexample :
    ¬ ((ParseAbbreviatedFPFields {} (fun s => s == "B738")
          ["UAL123", "1234", "P35", "B738", ".V"]).typeOfFlight = "departure" ∧
       (ParseAbbreviatedFPFields {} (fun s => s == "B738")
          ["UAL123", "1234", "P35", "B738", ".V"]).departureAirport = "35" ∧
       (ParseAbbreviatedFPFields {} (fun s => s == "B738")
          ["UAL123", "1234", "P35", "B738", ".V"]).rules = .vfr) := by
  decide

/-- Claim C9, amended: What the parser actually produces on
`["UAL123", "1234", "P35", "B738", ".V"]` (performance database containing
`B738`, long scratchpads off): identifier `UAL123`, beacon code `0o1234`,
aircraft type `B738`, no recorded error — but `".V"` becomes the
controlling position, while type of flight, departure airport and flight
rules are left at their zero values (`"P35"` matches no classifier). -/
theorem parseAbbreviatedFP_example :
    ParseAbbreviatedFPFields {} (fun s => s == "B738")
        ["UAL123", "1234", "P35", "B738", ".V"] =
      { acid := "UAL123", bcn := 0o1234, controllingPosition := ".V",
        aircraftType := "B738" } := by
  decide

end Vice
